import Mathlib

/-!
Verification development for the ravelry_fiber_analysis crawler.

Shallow embedding of the crawl engine of the repository:
the checkpoint save routines (`src/main.py` `save_checkpoint`,
`src/ravelry_fiber_analysis/api/client.py` `RavelryClient._save_checkpoint`),
the retrying request executor (`RavelryClient._make_request`), the sliding
window rate limiter (`RavelryClient._check_rate_limit`), the generic
paginator (`RavelryClient.paginate`), the yarn pack extraction
(`main.collect_yarn_data`, `pull_project_data.pull_project_data`), and the
per-pattern project/yarn collection loop of the orchestrator
(`main.collect_projects_for_pattern`, `main.find_projects_and_yarns`).

Machine integers of the source are modelled as `Nat`/`Int` (no overflow is
relevant here), `time.time()` clocks as `Int` seconds, fallible operations
(HTTP fetches, file writes) as oracle functions supplied to the embedded
code, and Python in-place mutation as explicit state passing.
-/

set_option autoImplicit false

namespace Ravelry

/-! ## Filesystem model for checkpoint saves (client.py `_save_checkpoint`,
main.py `save_checkpoint`)

A filesystem maps paths to file contents (`none` = file absent).  A save
routine is a list of primitive operations; a process kill may leave any
prefix of the operations applied, with a plain file write additionally
interruptible midway (the file then holds a proper prefix of the intended
bytes, since `open(path, "w")` truncates before writing).  A rename is
atomic: it either happened or it did not. -/

def FS : Type := String → Option String

def FS.update (fs : FS) (p : String) (v : Option String) : FS :=
  fun q => if q = p then v else fs q

inductive FSOp : Type
  | write (path : String) (content : String)
  | rename (src : String) (dst : String)

def applyOp (fs : FS) : FSOp → FS
  | .write p c => fs.update p (some c)
  | .rename src dst => fun q =>
      if q = dst then fs src else if q = src then none else fs q

/-- Filesystem states reachable if the process is killed at an arbitrary
instant while the operation list executes.  `here` = killed before the next
operation; `mid` = killed during a plain write (truncation already done,
only a prefix of the content on disk); `step` = the next operation
completed and the kill happens later. -/
inductive CrashReach : List FSOp → FS → FS → Prop
  | here (ops : List FSOp) (fs : FS) : CrashReach ops fs fs
  | mid (p c : String) (rest : List FSOp) (fs : FS) (pre : String)
      (h : pre.data.isPrefixOf c.data = true) :
      CrashReach (FSOp.write p c :: rest) fs (fs.update p (some pre))
  | step (op : FSOp) (rest : List FSOp) (fs fs' : FS)
      (h : CrashReach rest (applyOp fs op) fs') :
      CrashReach (op :: rest) fs fs'

/-- Split a character list at every occurrence of `c` (kernel-reducible
analogue of `str.split(c)`). -/
def splitCharAux (c : Char) : List Char → List Char → List (List Char)
  | [], acc => [acc.reverse]
  | x :: xs, acc =>
    if x = c then acc.reverse :: splitCharAux c xs []
    else splitCharAux c xs (x :: acc)

def splitChar (c : Char) (s : List Char) : List (List Char) :=
  splitCharAux c s []

def joinChar (c : Char) : List (List Char) → List Char
  | [] => []
  | [p] => p
  | p :: ps => p ++ c :: joinChar c ps

/-- `pathlib.Path.with_suffix`: replace the extension of the final path
component (append the suffix when the component has no extension). -/
def withSuffix (p : String) (suf : String) : String :=
  let comps := splitChar '/' p.data
  let last := comps.getLastD []
  let parts := splitChar '.' last
  let newLast :=
    if parts.length ≤ 1 then last ++ suf.data
    else joinChar '.' parts.dropLast ++ suf.data
  String.mk (joinChar '/' (comps.dropLast ++ [newLast]))

/-- `RavelryClient._save_checkpoint` (client.py lines 440-462): write the
full serialized data to the `.tmp` sibling, then `Path.replace` it onto the
target (atomic rename). -/
def clientSaveCheckpointOps (target : String) (data : String) : List FSOp :=
  [FSOp.write (withSuffix target ".tmp") data,
   FSOp.rename (withSuffix target ".tmp") target]

/-- `main.save_checkpoint` file effect (main.py lines 50-51): a direct
`open(filename, "w")` + `json.dump`, with no temporary file. -/
def mainSaveCheckpointOps (target : String) (data : String) : List FSOp :=
  [FSOp.write target data]

/-- The atomicity property claimed for a save routine: from any starting
filesystem, every kill-point leaves the target holding either its old
complete content or the new complete content. -/
def AtomicSave (ops : String → String → List FSOp) : Prop :=
  ∀ (target data : String) (fs fs' : FS),
    CrashReach (ops target data) fs fs' →
    fs' target = fs target ∨ fs' target = some data

/-! ## Retrying executor (client.py `_make_request`, lines 109-158)

The method body performs one transport call per attempt: the actual HTTP
request followed by `raise_for_status()` (which raises
`requests.exceptions.HTTPError`, a subclass of `RequestException`, on any
4xx/5xx status) and `response.json()` (which raises `JSONDecodeError` on a
malformed body).  The `tenacity` decorator retries on
`(requests.exceptions.RequestException, json.JSONDecodeError)` and stops
after `stop_after_attempt(3)` attempts. -/

inductive ReqError : Type
  | httpError (status : Nat)
  | connectionError
  | jsonDecodeError
deriving DecidableEq, Repr

/-- Python `isinstance(e, requests.exceptions.RequestException)`:
`HTTPError` and connection-level errors are subclasses, `JSONDecodeError`
is not. -/
def isRequestException : ReqError → Bool
  | .httpError _ => true
  | .connectionError => true
  | .jsonDecodeError => false

/-- The tenacity predicate `retry_if_exception_type((RequestException,
JSONDecodeError))` applied to an exception raised by the body. -/
def retryPredicate (e : ReqError) : Bool :=
  isRequestException e ||
    (match e with
     | .jsonDecodeError => true
     | _ => false)

/-- One tenacity-driven execution of `_make_request`. `transport n` is the
outcome of the (n+1)-st underlying call (0-based).  Returns the final
outcome together with the number of underlying transport calls made.
`attemptsLeft` counts attempts still allowed (entering with
`stop_after_attempt(3)` means 3). -/
def retryExec {α : Type} (transport : Nat → Except ReqError α) :
    Nat → Nat → Except ReqError α × Nat
  | 0, made => (.error .connectionError, made)
  | attemptsLeft + 1, made =>
    match transport made with
    | .ok v => (.ok v, made + 1)
    | .error e =>
      if retryPredicate e && attemptsLeft > 0 then
        retryExec transport attemptsLeft (made + 1)
      else (.error e, made + 1)

/-- `_make_request` under the decorator `stop_after_attempt(3)`. -/
def make_request {α : Type} (transport : Nat → Except ReqError α) :
    Except ReqError α × Nat :=
  retryExec transport 3 0

/-! ## Rate limiter (client.py `_check_rate_limit`, lines 92-107)

`time.time()` is modelled as an `Int`-valued clock carried in the state;
`time.sleep(d)` advances the clock by exactly `d`.  Between successive
`acquire` calls the caller's own work advances the clock by an arbitrary
non-negative delay. -/

structure RLConfig : Type where
  rate_limit_calls : Nat
  rate_limit_period : Int
deriving Repr

structure RLState : Type where
  clock : Int
  lastCalls : List Int
deriving Repr, DecidableEq

/-- `_check_rate_limit`: prune timestamps that left the window; if the
retained count is at or above the cap, sleep until the oldest retained
timestamp exits the window (a single `if`, not a loop), drop that oldest
timestamp, and append `now` — the clock value captured *before* the sleep.
Returns the new state and the recorded timestamp. -/
def check_rate_limit (cfg : RLConfig) (s : RLState) : RLState × Int :=
  let now := s.clock
  let kept := s.lastCalls.filter (fun t => now - t < cfg.rate_limit_period)
  if cfg.rate_limit_calls ≤ kept.length then
    let sleepTime := cfg.rate_limit_period - (now - kept.headD 0)
    let clock' := if 0 < sleepTime then s.clock + sleepTime else s.clock
    ({ clock := clock', lastCalls := kept.drop 1 ++ [now] }, now)
  else
    ({ s with lastCalls := kept ++ [now] }, now)

/-- Run a sequence of acquires: before each one the clock advances by the
given delay; the list of recorded call timestamps is returned. -/
def runAcquires (cfg : RLConfig) : RLState → List Nat → List Int
  | _, [] => []
  | s, d :: ds =>
    let s1 : RLState := { s with clock := s.clock + (d : Int) }
    let r := check_rate_limit cfg s1
    r.2 :: runAcquires cfg r.1 ds

/-- Number of recorded timestamps inside the trailing window of length
`period` ending at instant `wEnd`. -/
def windowCount (period : Int) (trace : List Int) (wEnd : Int) : Nat :=
  (trace.filter (fun t => t ≤ wEnd ∧ wEnd - t < period)).length

/-! ## Paginator (client.py `paginate`, lines 160-214)

The generator is embedded as a function from a page server to the full
list of yielded items together with the count of underlying page fetches.
`paginator` in a page response is the `page_count` field of the response
envelope when present (`response.get('paginator', {}).get('page_count', 1)`
defaults to 1 when absent). -/

structure PageResponse (α : Type) : Type where
  paginator : Option Nat
  items : List α

/-- The `while` condition `max_pages is None or page <= max_pages`. -/
def pageLoopCond (maxPages : Option Nat) (page : Nat) : Bool :=
  match maxPages with
  | none => true
  | some m => page ≤ m

/-- Iterations after the first: `total` is the page count fixed by the
first response (already clamped by `max_pages`).  The fuel argument is an
upper bound on the remaining iterations; the loop itself stops via
`page >= total` or the `while` condition. -/
def paginateRest {α : Type} (server : Nat → PageResponse α)
    (maxPages : Option Nat) (total : Nat) :
    Nat → Nat → List α × Nat → List α × Nat
  | _, 0, acc => acc
  | page, fuel + 1, (items, fetches) =>
    if pageLoopCond maxPages page then
      let r := server page
      let items := items ++ r.items
      if total ≤ page then (items, fetches + 1)
      else paginateRest server maxPages total (page + 1) fuel
        (items, fetches + 1)
    else (items, fetches)

/-- `RavelryClient.paginate`: fetch page 1, learn the total page count from
the first response envelope (clamping it to `max_pages` when the Python
truthiness test `if max_pages:` passes), yield that page's items, then keep
fetching while `page < total_pages`.  Returns all yielded items in order
and the number of underlying page fetches. -/
def paginate {α : Type} (server : Nat → PageResponse α)
    (maxPages : Option Nat) : List α × Nat :=
  if pageLoopCond maxPages 1 then
    let r := server 1
    let total0 := (r.paginator).getD 1
    let total :=
      match maxPages with
      | some m => if m ≠ 0 then min total0 m else total0
      | none => total0
    if total ≤ 1 then (r.items, 1)
    else paginateRest server maxPages total 2 (total - 1) (r.items, 1)
  else ([], 0)

/-! ## Data model of the orchestrator (src/main.py)

Python dicts holding fixed keys become structures; the dynamically typed
`completed_projects` (a `set` in memory, a `list` after JSON round trips)
is a `PySet`: a list of elements together with a flag recording which
Python representation currently holds them. -/

structure PySet : Type where
  isSet : Bool
  elems : List String
deriving DecidableEq, Repr

/-- Python `set(xs)` applied to a list or set of strings. -/
def pySetOf (ps : PySet) : PySet :=
  { isSet := true, elems := ps.elems.eraseDups }

/-- Python `s.add(x)` on a set. -/
def PySet.add (ps : PySet) (x : String) : PySet :=
  if ps.elems.contains x then ps else { ps with elems := ps.elems ++ [x] }

structure PatternInfo : Type where
  id : Nat
  name : String
  permalink : String
deriving DecidableEq, Repr

/-- A project item of a project-search listing page, with the fields read
by `collect_projects_for_pattern`. -/
structure Project : Type where
  id : Nat
  name : String
  permalink : String
  pattern_id : Option Nat
  user_id : Nat
  username : String
  status_name : String
  tag_names : List String
deriving DecidableEq, Repr

/-- The record appended to `stored_json_this_pattern_projects` (main.py
lines 177-186). -/
structure ProjectRecord : Type where
  id : Nat
  name : String
  permalink : String
  pattern_id : Option Nat
  user_id : Nat
  username : String
  status : String
  tag_names : List String
deriving DecidableEq, Repr

def mkProjectRecord (p : Project) : ProjectRecord :=
  { id := p.id, name := p.name, permalink := p.permalink,
    pattern_id := p.pattern_id, user_id := p.user_id,
    username := p.username, status := p.status_name,
    tag_names := p.tag_names }

/-- One entry of `json_parsed['packs']`; `yarn` is the permalink of the
nested yarn object when that object is non-null. -/
structure YarnPack : Type where
  id : Option Nat
  yarn_id : Option Nat
  yarn_name : String
  yarn : Option String
deriving DecidableEq, Repr

structure PackEntry : Type where
  package_id : Nat
  yarn_id : Option Nat
  yarn_name : String
  yarn_permalink : Option String
deriving DecidableEq, Repr

def packEntryOf (y : YarnPack) : PackEntry :=
  { package_id := y.id.getD 0, yarn_id := y.yarn_id,
    yarn_name := y.yarn_name, yarn_permalink := y.yarn }

/-- The packs loop of `main.collect_yarn_data` (lines 82-90): a pack with
a null id is skipped with `continue`; later packs are still visited. -/
def collectPacks : List YarnPack → List PackEntry
  | [] => []
  | y :: ys =>
    match y.id with
    | none => collectPacks ys
    | some pid =>
      { package_id := pid, yarn_id := y.yarn_id, yarn_name := y.yarn_name,
        yarn_permalink := y.yarn } :: collectPacks ys

/-- The packs loop of `pull_project_data.pull_project_data` (lines 28-37):
a pack with a null id exits the loop with `break`; later packs are
dropped. -/
def pullPacks : List YarnPack → List PackEntry
  | [] => []
  | y :: ys =>
    match y.id with
    | none => []
    | some pid =>
      { package_id := pid, yarn_id := y.yarn_id, yarn_name := y.yarn_name,
        yarn_permalink := y.yarn } :: pullPacks ys

/-- The fields of `json.loads(...)['project']` read by
`collect_yarn_data`. -/
structure ProjectDetail : Type where
  pattern_id : Option Nat
  id : Nat
  favorites_count : Nat
  packs : List YarnPack
deriving DecidableEq, Repr

structure ProjectYarnData : Type where
  pattern_id : Option Nat
  project_id : Nat
  project_favorites : Nat
  yarn_data : List PackEntry
deriving DecidableEq, Repr

/-- Pure part of `main.collect_yarn_data` (lines 74-92), applied to the
fetched project detail. -/
def collect_yarn_data (d : ProjectDetail) : ProjectYarnData :=
  { pattern_id := d.pattern_id, project_id := d.id,
    project_favorites := d.favorites_count,
    yarn_data := collectPacks d.packs }

structure YarnCollection : Type where
  completed_patterns : List String
  completed_projects : PySet
  current_pattern : Option String
  current_project_index : Nat
  current_project_page : Nat
deriving DecidableEq, Repr

/-- The checkpoint dict of main.py (both checkpoint files share this
shape; `stored_projects['projects']` is a list of one-key dicts). -/
structure Checkpoint : Type where
  patterns_completed : Bool
  patterns_page : Nat
  stored_patterns : List PatternInfo
  stored_projects : List (String × List ProjectRecord)
  last_pattern_index : Int
  yarn_collection : YarnCollection
deriving DecidableEq, Repr

/-- `load_checkpoint` default state (main.py lines 27-40):
`completed_projects` starts as a Python `set`. -/
def defaultCheckpoint : Checkpoint :=
  { patterns_completed := false, patterns_page := 1, stored_patterns := [],
    stored_projects := [], last_pattern_index := -1,
    yarn_collection :=
      { completed_patterns := [],
        completed_projects := { isSet := true, elems := [] },
        current_pattern := none, current_project_index := 0,
        current_project_page := 1 } }

/-- In-memory effect of `main.save_checkpoint` (lines 42-48) on the
caller's checkpoint object: when `completed_projects` is currently a set
it is replaced, in place, by a list of the same elements; nothing else is
touched.  (The dict shape always contains `yarn_collection`, so the
`'yarn_collection' in checkpoint_data` guard is always true here.) -/
def save_checkpoint_mem (c : Checkpoint) : Checkpoint :=
  if c.yarn_collection.completed_projects.isSet then
    { c with yarn_collection :=
        { c.yarn_collection with completed_projects :=
            { isSet := false,
              elems := c.yarn_collection.completed_projects.elems } } }
  else c

/-! ## The per-pattern collection loop (main.py
`collect_projects_for_pattern`, lines 145-221)

Fallible externals are oracles: `pageFetch` is `get_paginated_data` on the
project listing, `yarnFetch` is the HTTP fetch inside `collect_yarn_data`
keyed by project id, and the two write oracles give the outcome of the
n-th (0-based) per-pattern yarn-file write / yarn-checkpoint write of the
run.  Any caught exception is modelled by its `Except.error`; the inner
`except` clause of the loop does not inspect the exception, so a single
error type suffices. -/

structure ProjectsPage : Type where
  last_page : Nat
  projects : List Project
deriving DecidableEq, Repr

structure CrawlEnv : Type where
  pageFetch : Nat → Except Unit ProjectsPage
  yarnFetch : Nat → Except Unit ProjectDetail
  yarnWriteOk : Nat → Bool
  ckptWriteOk : Nat → Bool

/-- State threaded through the loop: the in-memory yarn checkpoint, the
last successfully persisted yarn checkpoint (`none` = absent or
truncated by a failed write), the per-pattern accumulators, the on-disk
per-pattern yarn file, the trace of attempted yarn detail fetches (by
project id), the trace of fetched listing pages, and the write
counters. -/
structure CollectState : Type where
  yc : Checkpoint
  persistedYc : Option Checkpoint
  storedJson : List ProjectRecord
  patternYarns : List ProjectYarnData
  yarnFile : Option (List ProjectYarnData)
  fetched : List Nat
  pageFetches : List Nat
  yw : Nat
  cw : Nat
deriving DecidableEq, Repr

inductive Outcome (σ : Type) : Type
  | ok (s : σ)
  | raised (s : σ)
deriving DecidableEq, Repr

def Outcome.state {σ : Type} : Outcome σ → σ
  | .ok s => s
  | .raised s => s

def Outcome.isOk {σ : Type} : Outcome σ → Bool
  | .ok _ => true
  | .raised _ => false

/-- `save_checkpoint(yarn_checkpoint, YARN_CHECKPOINT_FILE)`: the
in-memory set-to-list conversion always happens, then the write either
persists the serialized state or fails (leaving the file truncated).
Returns the new state and whether the write succeeded. -/
def saveYarnCkpt (env : CrawlEnv) (s : CollectState) : CollectState × Bool :=
  let yc' := save_checkpoint_mem s.yc
  let ok := env.ckptWriteOk s.cw
  ({ s with
      yc := yc'
      cw := s.cw + 1
      persistedYc := if ok then some yc' else none }, ok)

def unique_project_key (p : Project) : String :=
  p.name ++ "_" ++ toString p.id

def setCurrentPage (c : Checkpoint) (n : Nat) : Checkpoint :=
  { c with yarn_collection :=
      { c.yarn_collection with current_project_page := n } }

/-- Body of `for project in projects_data['projects']` (main.py lines
170-207).  The skip test consults the in-memory `completed_projects` (a
Python `in`, valid on both the set and the list representation) and the
ids already present in the previously persisted yarn file.  A non-skipped
project is appended to `stored_json` *before* the inner `try`; the yarn
detail fetch, the in-memory updates, the yarn-file write and the
checkpoint save follow, and any exception among them is caught and the
loop continues with the next project. -/
def processProject (env : CrawlEnv) (permalink : String)
    (existingIds : List Nat) (currentPage : Nat) (s : CollectState)
    (p : Project) : CollectState :=
  let key := unique_project_key p
  if s.yc.yarn_collection.completed_projects.elems.contains key
      || existingIds.contains p.id then s
  else
    let s1 := { s with
      storedJson := s.storedJson ++ [mkProjectRecord p],
      fetched := s.fetched ++ [p.id] }
    match env.yarnFetch p.id with
    | .error _ => s1
    | .ok detail =>
      let yd := collect_yarn_data detail
      let s2 := { s1 with patternYarns := s1.patternYarns ++ [yd] }
      let coll := s2.yc.yarn_collection
      let coll' := { coll with
        current_pattern := some permalink,
        current_project_page := currentPage,
        completed_projects := (pySetOf coll.completed_projects).add key }
      let s3 := { s2 with yc := { s2.yc with yarn_collection := coll' } }
      let ok := env.yarnWriteOk s3.yw
      let s4 := { s3 with
        yw := s3.yw + 1
        yarnFile := if ok then some s3.patternYarns else none }
      if ok then (saveYarnCkpt env s4).1 else s4

def processProjects (env : CrawlEnv) (permalink : String)
    (existingIds : List Nat) (currentPage : Nat) :
    CollectState → List Project → CollectState
  | s, [] => s
  | s, p :: ps =>
    processProjects env permalink existingIds currentPage
      (processProject env permalink existingIds currentPage s p) ps

def PROJECT_PAGINATION_LIMIT : Nat := 5

/-- The `while current_page <= total_pages` loop (main.py lines 161-219).
On pages after the first the listing is refetched and `total_pages` is
clamped to `PROJECT_PAGINATION_LIMIT`; a refetch failure runs the
`except` handler (save the yarn checkpoint, re-raise).  After the page's
projects are processed, `current_project_page` is advanced and the yarn
checkpoint saved; a failure of that save also reaches the handler, which
saves once more before re-raising.  The fuel argument bounds iterations
and is chosen large enough by the caller. -/
def collectPageLoop (env : CrawlEnv) (permalink : String)
    (existingIds : List Nat) :
    Nat → List Project → Nat → Nat → CollectState → Outcome CollectState
  | 0, _, _, _, s => .ok s
  | fuel + 1, projectsData, currentPage, totalPages, s =>
    if totalPages < currentPage then .ok s
    else
      if 1 < currentPage then
        let s1 := { s with pageFetches := s.pageFetches ++ [currentPage] }
        match env.pageFetch currentPage with
        | .error _ => .raised (saveYarnCkpt env s1).1
        | .ok pd =>
          let totalPages1 := min totalPages PROJECT_PAGINATION_LIMIT
          if totalPages1 < currentPage then .ok s1
          else
            let s2 := processProjects env permalink existingIds currentPage
              s1 pd.projects
            let s3 := { s2 with yc := setCurrentPage s2.yc (currentPage + 1) }
            let r := saveYarnCkpt env s3
            if r.2 then
              collectPageLoop env permalink existingIds fuel pd.projects
                (currentPage + 1) totalPages1 r.1
            else .raised (saveYarnCkpt env r.1).1
      else
        let s2 := processProjects env permalink existingIds currentPage
          s projectsData
        let s3 := { s2 with yc := setCurrentPage s2.yc (currentPage + 1) }
        let r := saveYarnCkpt env s3
        if r.2 then
          collectPageLoop env permalink existingIds fuel projectsData
            (currentPage + 1) totalPages r.1
        else .raised (saveYarnCkpt env r.1).1

/-- `collect_projects_for_pattern` (main.py lines 145-221): read the start
page from the yarn checkpoint, fetch it (this initial fetch sits outside
the `try`, so its failure propagates without a save inside this
function), snapshot the project ids of the previously persisted yarn
file, and run the page loop. -/
def collect_projects_for_pattern (env : CrawlEnv) (pattern : PatternInfo)
    (s : CollectState) : Outcome CollectState :=
  let currentPage := s.yc.yarn_collection.current_project_page
  let s1 := { s with pageFetches := s.pageFetches ++ [currentPage] }
  match env.pageFetch currentPage with
  | .error _ => .raised s1
  | .ok pd =>
    let totalPages := pd.last_page
    let existingIds := s1.patternYarns.map (fun y => y.project_id)
    collectPageLoop env pattern.permalink existingIds (totalPages + 2)
      pd.projects currentPage totalPages s1

/-- `load_existing_yarn_data` (main.py lines 53-59): the file contents
when present, else an empty list for the pattern key. -/
def load_existing_yarn_data (yarnFile : Option (List ProjectYarnData)) :
    List ProjectYarnData :=
  match yarnFile with
  | some l => l
  | none => []

def initCollectState (yc : Checkpoint) (patternYarns : List ProjectYarnData)
    (yarnFile : Option (List ProjectYarnData)) : CollectState :=
  { yc := yc, persistedYc := none, storedJson := [],
    patternYarns := patternYarns, yarnFile := yarnFile, fetched := [],
    pageFetches := [], yw := 0, cw := 0 }

/-- Per-pattern slice of Phase B of `find_projects_and_yarns` (main.py
lines 253-268): skip the pattern when its permalink is in
`completed_patterns`; otherwise load the existing per-pattern yarn data,
reset `current_project_page` to 1 (line 263, unconditional), and run
`collect_projects_for_pattern`.  Returns `none` when the pattern was
skipped. -/
def processPatternSlice (env : CrawlEnv) (yc : Checkpoint)
    (pattern : PatternInfo) (yarnFileOnDisk : Option (List ProjectYarnData)) :
    Option (Outcome CollectState) :=
  if yc.yarn_collection.completed_patterns.contains pattern.permalink then
    none
  else
    let patternYarns := load_existing_yarn_data yarnFileOnDisk
    let yc1 := setCurrentPage yc 1
    some (collect_projects_for_pattern env pattern
      (initCollectState yc1 patternYarns yarnFileOnDisk))

/-! ## Concrete inputs used by counterexamples and witnesses -/

def projA : Project := ⟨1, "A", "a-proj", some 9, 7, "u", "finished", []⟩
def projB : Project := ⟨2, "B", "b-proj", some 9, 8, "v", "finished", []⟩
def detailA : ProjectDetail := ⟨some 9, 1, 3, []⟩
def detailB : ProjectDetail := ⟨some 9, 2, 4, []⟩
def patternPat : PatternInfo := ⟨100, "Pat", "pat"⟩

/-- A run in which the single project's yarn detail fetch succeeds but the
per-pattern yarn-file write fails, while checkpoint writes succeed. -/
def c1Env : CrawlEnv :=
  { pageFetch := fun n => if n = 1 then .ok ⟨1, [projA]⟩ else .error ()
    yarnFetch := fun _ => .ok detailA
    yarnWriteOk := fun _ => false
    ckptWriteOk := fun _ => true }

def c1Run : Outcome CollectState :=
  collect_projects_for_pattern c1Env patternPat
    (initCollectState defaultCheckpoint [] none)

/-- A run in which the first project's yarn detail fetch fails and the
second project's succeeds; all writes succeed. -/
def c8Env : CrawlEnv :=
  { pageFetch := fun n => if n = 1 then .ok ⟨1, [projA, projB]⟩ else .error ()
    yarnFetch := fun n => if n = 2 then .ok detailB else .error ()
    yarnWriteOk := fun _ => true
    ckptWriteOk := fun _ => true }

def c8Run : Outcome CollectState :=
  collect_projects_for_pattern c8Env patternPat
    (initCollectState defaultCheckpoint [] none)

/-- An environment whose listing refetch of page 2 fails. -/
def c8bEnv : CrawlEnv :=
  { pageFetch := fun n => if n = 1 then .ok ⟨2, [projA]⟩ else .error ()
    yarnFetch := fun _ => .ok detailA
    yarnWriteOk := fun _ => true
    ckptWriteOk := fun _ => true }

/-- A yarn checkpoint persisted by an interrupted run: the crawl stopped
inside pattern `pat` while fetching its project listing page 7. -/
def c5Checkpoint : Checkpoint :=
  { defaultCheckpoint with
      yarn_collection :=
        { completed_patterns := []
          completed_projects := ⟨false, ["X_9"]⟩
          current_pattern := some "pat"
          current_project_index := 0
          current_project_page := 7 } }

def c5Env : CrawlEnv :=
  { pageFetch := fun n => if n = 1 then .ok ⟨1, []⟩ else .error ()
    yarnFetch := fun _ => .error ()
    yarnWriteOk := fun _ => true
    ckptWriteOk := fun _ => true }

/-- A checkpoint whose completed set is `{"Sweater_42"}`. -/
def c7Checkpoint : Checkpoint :=
  { defaultCheckpoint with
      yarn_collection :=
        { completed_patterns := []
          completed_projects := ⟨true, ["Sweater_42"]⟩
          current_pattern := none
          current_project_index := 0
          current_project_page := 1 } }

def c7State : CollectState := initCollectState c7Checkpoint [] none

def proj42 : Project := ⟨42, "Sweater", "sw-42", some 9, 7, "u", "finished", []⟩
def proj43 : Project := ⟨43, "Sweater", "sw-43", some 9, 7, "u", "finished", []⟩

def c7Env : CrawlEnv :=
  { pageFetch := fun _ => .error ()
    yarnFetch := fun _ => .ok detailA
    yarnWriteOk := fun _ => true
    ckptWriteOk := fun _ => true }

/-- A filesystem holding the old complete checkpoint. -/
def c2fs0 : FS :=
  fun q => if q = "data/crawler_checkpoint.json" then some "OLD" else none

/-- A transport that always fails with HTTP 404, a 4xx client error. -/
def c3transport : Nat → Except ReqError Unit :=
  fun _ => .error (.httpError 404)

/-- A stub listing server built from a fixed list of pages, every response
reporting the full page count. -/
def stubServer {α : Type} (ps : List (List α)) : Nat → PageResponse α :=
  fun i => ⟨some ps.length, ps.getD (i - 1) []⟩

/-- A pack whose id is null followed by a pack with a usable id. -/
def packNull : YarnPack := ⟨none, none, "", none⟩
def packGood : YarnPack := ⟨some 5, some 77, "Wool", some "wool"⟩

def c2target : String := "data/crawler_checkpoint.json"

/-- The filesystem after `main.save_checkpoint` is killed right after the
`open(filename, "w")` truncation, before any byte of the new content is
written. -/
def c2crash : FS := c2fs0.update c2target (some "")

instance exceptDecEq {ε α : Type} [DecidableEq ε] [DecidableEq α] :
    DecidableEq (Except ε α) := fun x y =>
  match x, y with
  | .ok a, .ok b =>
    if h : a = b then .isTrue (by rw [h])
    else .isFalse (by intro hh; cases hh; exact h rfl)
  | .ok _, .error _ => .isFalse (by intro hh; cases hh)
  | .error _, .ok _ => .isFalse (by intro hh; cases hh)
  | .error a, .error b =>
    if h : a = b then .isTrue (by rw [h])
    else .isFalse (by intro hh; cases hh; exact h rfl)

/-! ## Helper lemmas -/

theorem retryExec_succ {α : Type} (t : Nat → Except ReqError α)
    (k m : Nat) :
    retryExec t (k + 1) m =
      (match t m with
       | .ok v => (.ok v, m + 1)
       | .error e =>
         if retryPredicate e && decide (0 < k) then retryExec t k (m + 1)
         else (.error e, m + 1)) := rfl

theorem save_checkpoint_mem_elems (c : Checkpoint) :
    (save_checkpoint_mem c).yarn_collection.completed_projects.elems =
      c.yarn_collection.completed_projects.elems := by
  unfold save_checkpoint_mem
  split <;> rfl

theorem pySet_add_contains (ps : PySet) (x : String) :
    ((ps.add x).elems.contains x) = true := by
  unfold PySet.add
  split
  · assumption
  · induction ps.elems with
    | nil => simp
    | cons a t ih => simp_all [List.contains_cons]

theorem retryExec_all_fail {α : Type} (t : Nat → Except ReqError α)
    (h : ∀ n, ∃ e, t n = Except.error e ∧ retryPredicate e = true) :
    ∀ k m, 1 ≤ k →
      (retryExec t k m).2 = m + k ∧ ∃ e, (retryExec t k m).1 = Except.error e := by
  intro k
  induction k with
  | zero => intro m hm; omega
  | succ j ih =>
    intro m _
    obtain ⟨e, he, hr⟩ := h m
    match j, ih with
    | 0, _ => simp [retryExec_succ, he, hr]
    | j' + 1, ih =>
      have hrec := ih (m + 1) (by omega)
      rw [retryExec_succ, he]
      simp only [hr, Bool.true_and, decide_eq_true_eq, if_pos (by omega : 0 < j' + 1)]
      constructor
      · rw [hrec.1]; omega
      · exact hrec.2

end Ravelry

namespace Ravelry

/-! ## Claim theorems -/

/-- Claim C9 (counterexample): the claim states that for every packs list
the extracted yarn data contains exactly the non-null-id packs, packs
after a null-id pack included.  `pull_project_data` (one of the two cited
extraction sites) stops at the first null-id pack with `break`, so for
`[packNull, packGood]` it extracts nothing, while the claimed filter
semantics would keep the good pack. -/
theorem C9_counterexample :
    pullPacks [packNull, packGood] = []
    ∧ ([packNull, packGood].filter (fun y => y.id.isSome)).map packEntryOf
        = [packEntryOf packGood]
    ∧ ([] : List PackEntry) ≠ [packEntryOf packGood] := by
  decide

theorem collectPacks_eq_filter (packs : List YarnPack) :
    collectPacks packs =
      (packs.filter (fun y => y.id.isSome)).map packEntryOf := by
  induction packs with
  | nil => rfl
  | cons y ys ih =>
    cases h : y.id <;>
      simp [collectPacks, packEntryOf, h, ih, List.filter_cons]

theorem pullPacks_eq_takeWhile (packs : List YarnPack) :
    pullPacks packs =
      (packs.takeWhile (fun y => y.id.isSome)).map packEntryOf := by
  induction packs with
  | nil => rfl
  | cons y ys ih =>
    cases h : y.id <;>
      simp [pullPacks, packEntryOf, h, ih, List.takeWhile_cons]

/-- Claim C9 (amended): `main.collect_yarn_data` omits each null-id pack
individually and keeps the packs after it (a filter), while
`pull_project_data` stops at the first null-id pack and drops it together
with every later pack (a takeWhile). -/
theorem C9_pack_extraction (packs : List YarnPack) :
    collectPacks packs =
      (packs.filter (fun y => y.id.isSome)).map packEntryOf
    ∧ pullPacks packs =
      (packs.takeWhile (fun y => y.id.isSome)).map packEntryOf :=
  ⟨collectPacks_eq_filter packs, pullPacks_eq_takeWhile packs⟩

/-- Claim C10: `main.save_checkpoint` applied to a state whose
`completed_projects` is currently a Python set mutates the caller's state
in place: afterwards `completed_projects` is a list holding the same
elements, and every other field of the checkpoint is unchanged. -/
theorem C10_save_checkpoint_mem_spec (c : Checkpoint)
    (h : c.yarn_collection.completed_projects.isSet = true) :
    (save_checkpoint_mem c).yarn_collection.completed_projects.isSet = false
    ∧ (save_checkpoint_mem c).yarn_collection.completed_projects.elems =
        c.yarn_collection.completed_projects.elems
    ∧ (save_checkpoint_mem c).patterns_completed = c.patterns_completed
    ∧ (save_checkpoint_mem c).patterns_page = c.patterns_page
    ∧ (save_checkpoint_mem c).stored_patterns = c.stored_patterns
    ∧ (save_checkpoint_mem c).stored_projects = c.stored_projects
    ∧ (save_checkpoint_mem c).last_pattern_index = c.last_pattern_index
    ∧ (save_checkpoint_mem c).yarn_collection.completed_patterns =
        c.yarn_collection.completed_patterns
    ∧ (save_checkpoint_mem c).yarn_collection.current_pattern =
        c.yarn_collection.current_pattern
    ∧ (save_checkpoint_mem c).yarn_collection.current_project_index =
        c.yarn_collection.current_project_index
    ∧ (save_checkpoint_mem c).yarn_collection.current_project_page =
        c.yarn_collection.current_project_page := by
  simp [save_checkpoint_mem, h]

/-- Claim C10 (witness): the in-place list conversion observed on the
default checkpoint, whose completed set starts as a Python set. -/
theorem C10_witness :
    defaultCheckpoint.yarn_collection.completed_projects.isSet = true
    ∧ (save_checkpoint_mem defaultCheckpoint).yarn_collection.completed_projects.isSet
        = false
    ∧ (save_checkpoint_mem defaultCheckpoint).yarn_collection.completed_projects.elems
        = defaultCheckpoint.yarn_collection.completed_projects.elems :=
  ⟨by decide, (C10_save_checkpoint_mem_spec defaultCheckpoint (by decide)).1,
    (C10_save_checkpoint_mem_spec defaultCheckpoint (by decide)).2.1⟩

/-- Claim C3 (counterexample): the claim states that a 4xx failure causes
exactly one underlying transport call.  `HTTPError` is a subclass of
`requests.exceptions.RequestException`, which the tenacity decorator
classifies as retryable, so a transport that always returns HTTP 404
is called three times (the full `stop_after_attempt(3)` budget). -/
theorem C3_counterexample :
    (make_request c3transport).2 ≠ 1
    ∧ make_request c3transport = (Except.error (ReqError.httpError 404), 3) := by
  decide

/-- Claim C3 (amended): every error `_make_request` raises (HTTP errors
4xx included, connection errors, JSON decode errors) matches the
decorator's retry predicate, so a persistently failing request performs
exactly `stop_after_attempt(3) = 3` underlying transport calls and then
surfaces the failure. -/
theorem C3_retryable_exhausts_attempts {α : Type}
    (transport : Nat → Except ReqError α)
    (h : ∀ n, ∃ e, transport n = Except.error e ∧ retryPredicate e = true) :
    (make_request transport).2 = 3
    ∧ ∃ e, (make_request transport).1 = Except.error e := by
  have := retryExec_all_fail transport h 3 0 (by omega)
  exact ⟨this.1, this.2⟩

/-- Claim C3 (witness): the amended statement instantiated at the
constant-404 transport. -/
theorem C3_witness :
    (make_request c3transport).2 = 3
    ∧ ∃ e, (make_request c3transport).1 = Except.error e :=
  C3_retryable_exhausts_attempts c3transport
    (fun _ => ⟨ReqError.httpError 404, rfl, rfl⟩)

/-- Claim C4 (counterexample): the claim states that no trailing window of
`rate_limit_period` seconds ever contains more than `rate_limit_calls`
recorded call timestamps.  With a cap of 1 call per 60 seconds and
acquires arriving at clock 0 and clock 1, the limiter records timestamps
0 and 1 (the pre-sleep clock is recorded, and the window is not re-checked
after sleeping), so the window ending at instant 1 holds 2 recorded
timestamps. -/
theorem C4_counterexample :
    runAcquires ⟨1, 60⟩ ⟨0, []⟩ [0, 1] = [0, 1]
    ∧ windowCount 60 (runAcquires ⟨1, 60⟩ ⟨0, []⟩ [0, 1]) 1 = 2
    ∧ ¬ windowCount 60 (runAcquires ⟨1, 60⟩ ⟨0, []⟩ [0, 1]) 1 ≤ 1 := by
  decide

/-- Claim C4 (amended): the retained timestamp list never grows beyond
`rate_limit_calls` entries (cap at least 1): each acquire prunes expired
timestamps and, at the cap, performs a single sleep (no re-check loop),
drops the oldest retained timestamp, and records the pre-sleep clock.
The trailing-window bound on recorded timestamps does not hold, as the
counterexample shows. -/
theorem C4_window_length_bound (cfg : RLConfig) (s : RLState)
    (hcap : 1 ≤ cfg.rate_limit_calls)
    (hlen : s.lastCalls.length ≤ cfg.rate_limit_calls) :
    ((check_rate_limit cfg s).1).lastCalls.length ≤ cfg.rate_limit_calls := by
  have hk : (s.lastCalls.filter
      (fun t => s.clock - t < cfg.rate_limit_period)).length ≤
      s.lastCalls.length := List.length_filter_le _ _
  unfold check_rate_limit
  by_cases hc : cfg.rate_limit_calls ≤
      (s.lastCalls.filter
        (fun t => s.clock - t < cfg.rate_limit_period)).length
  · simp only [hc, if_pos, if_true]
    simp only [List.length_append, List.length_drop, List.length_cons,
      List.length_nil]
    omega
  · simp only [hc, if_neg, if_false]
    simp only [List.length_append, List.length_cons, List.length_nil]
    omega

/-- Claim C4 (witness): the length bound instantiated at a fresh limiter
with cap 1. -/
theorem C4_witness :
    ((check_rate_limit ⟨1, 60⟩ ⟨0, []⟩).1).lastCalls.length ≤ 1 :=
  C4_window_length_bound ⟨1, 60⟩ ⟨0, []⟩ (by decide) (by decide)

/-- Claim C2 (counterexample): the claim quantifies over every checkpoint
save, but `main.save_checkpoint` writes the target file directly with
`open(filename, "w")`: killed right after the truncation it leaves an
empty file, which is neither the old complete checkpoint (`"OLD"`) nor
the new one (`"NEW"`). -/
theorem C2_counterexample :
    CrashReach (mainSaveCheckpointOps c2target "NEW") c2fs0 c2crash
    ∧ c2crash c2target ≠ c2fs0 c2target
    ∧ c2crash c2target ≠ some "NEW" :=
  ⟨CrashReach.mid c2target "NEW" [] c2fs0 "" (by decide), by decide, by decide⟩

/-- Claim C2 (amended): `RavelryClient._save_checkpoint` is atomic — for
any kill point during the temp-write-then-rename sequence the target path
holds either its old complete content or the new complete content
(whenever the `.tmp` sibling is a distinct path, as it is for the `.json`
checkpoint files).  `main.save_checkpoint` does not share this property:
it writes the target directly, as the counterexample shows. -/
theorem C2_client_save_atomic (target data : String)
    (h : withSuffix target ".tmp" ≠ target) :
    ∀ fs fs', CrashReach (clientSaveCheckpointOps target data) fs fs' →
      fs' target = fs target ∨ fs' target = some data := by
  intro fs fs' hr
  have hne : ¬ (target = withSuffix target ".tmp") := fun e => h e.symm
  cases hr with
  | here => exact Or.inl rfl
  | mid p c rest fs0 pre hpre =>
    left
    simp [FS.update, hne]
  | step op rest fs0 fs1 h1 =>
    cases h1 with
    | here =>
      left
      simp [applyOp, FS.update, hne]
    | step op2 rest2 fs2 fs3 h2 =>
      cases h2 with
      | here =>
        right
        simp [applyOp, FS.update]

/-- Claim C2 (witness): the client-save atomicity applied to the real
checkpoint path, with the kill happening before any operation ran. -/
theorem C2_witness :
    withSuffix "data/crawler_checkpoint.json" ".tmp"
      ≠ "data/crawler_checkpoint.json"
    ∧ (c2fs0 "data/crawler_checkpoint.json"
          = c2fs0 "data/crawler_checkpoint.json"
        ∨ c2fs0 "data/crawler_checkpoint.json" = some "NEW") :=
  ⟨by decide,
    C2_client_save_atomic "data/crawler_checkpoint.json" "NEW" (by decide)
      c2fs0 c2fs0 (CrashReach.here _ _)⟩

/-- Claim C7: a project is skipped — nothing about the state changes, so
no detail fetch and no record append — exactly when its unique key
`name + "_" + id` is in `completed_projects` or its numeric id is among
the ids of the previously persisted per-pattern yarn file; with
`completed_projects = {"Sweater_42"}` the project `(name "Sweater",
id 42)` is skipped while `(name "Sweater", id 43)` is fetched and
recorded. -/
theorem C7_skip_iff :
    (∀ (env : CrawlEnv) (permalink : String) (existingIds : List Nat)
        (page : Nat) (s : CollectState) (p : Project),
      (s.yc.yarn_collection.completed_projects.elems.contains
          (unique_project_key p) || existingIds.contains p.id) = true →
        processProject env permalink existingIds page s p = s)
    ∧ (∀ (env : CrawlEnv) (permalink : String) (existingIds : List Nat)
        (page : Nat) (s : CollectState) (p : Project),
      (s.yc.yarn_collection.completed_projects.elems.contains
          (unique_project_key p) || existingIds.contains p.id) = false →
        (processProject env permalink existingIds page s p).fetched
            = s.fetched ++ [p.id]
        ∧ (processProject env permalink existingIds page s p).storedJson
            = s.storedJson ++ [mkProjectRecord p])
    ∧ unique_project_key proj42 = "Sweater_42"
    ∧ processProject c7Env "pat" [] 1 c7State proj42 = c7State
    ∧ (processProject c7Env "pat" [] 1 c7State proj43).fetched = [43]
    ∧ (processProject c7Env "pat" [] 1 c7State proj43).storedJson
        = [mkProjectRecord proj43] := by
  refine ⟨?_, ?_, by decide, by decide, by decide, by decide⟩
  · intro env permalink existingIds page s p h
    simp only [processProject]
    rw [h]
    simp
  · intro env permalink existingIds page s p h
    simp only [processProject, h, Bool.false_eq_true, if_false]
    cases env.yarnFetch p.id with
    | error e => exact ⟨rfl, rfl⟩
    | ok d =>
      dsimp only
      split <;> exact ⟨rfl, rfl⟩

/-- Claim C7 (witness): the skip direction applied at the checkpoint with
`completed_projects = {"Sweater_42"}` and the project `(Sweater, 42)`. -/
theorem C7_witness :
    processProject c7Env "pat" [] 1 c7State proj42 = c7State :=
  C7_skip_iff.1 c7Env "pat" [] 1 c7State proj42 (by decide)

theorem processProject_pageFetches (env : CrawlEnv) (permalink : String)
    (existingIds : List Nat) (page : Nat) (s : CollectState) (p : Project) :
    (processProject env permalink existingIds page s p).pageFetches =
      s.pageFetches := by
  simp only [processProject, saveYarnCkpt]
  split
  · rfl
  · cases env.yarnFetch p.id with
    | error e => rfl
    | ok d =>
      dsimp only
      split <;> rfl

theorem processProjects_pageFetches (env : CrawlEnv) (permalink : String)
    (existingIds : List Nat) (page : Nat) :
    ∀ (ps : List Project) (s : CollectState),
      (processProjects env permalink existingIds page s ps).pageFetches =
        s.pageFetches := by
  intro ps
  induction ps with
  | nil => intro s; rfl
  | cons p ps ih =>
    intro s
    rw [processProjects, ih, processProject_pageFetches]

theorem saveYarnCkpt_pageFetches (env : CrawlEnv) (s : CollectState) :
    ((saveYarnCkpt env s).1).pageFetches = s.pageFetches := rfl

theorem collectPageLoop_pageFetches (env : CrawlEnv) (permalink : String)
    (exIds : List Nat) :
    ∀ (fuel : Nat) (pd : List Project) (page total : Nat) (s : CollectState),
      ∃ t, (collectPageLoop env permalink exIds fuel pd page total s).state.pageFetches
        = s.pageFetches ++ t := by
  intro fuel
  induction fuel with
  | zero =>
    intro pd page total s
    exact ⟨[], by simp [collectPageLoop, Outcome.state]⟩
  | succ f ih =>
    intro pd page total s
    rw [collectPageLoop]
    by_cases h1 : total < page
    · rw [if_pos h1]
      exact ⟨[], by simp [Outcome.state]⟩
    · rw [if_neg h1]
      by_cases h2 : 1 < page
      · rw [if_pos h2]
        cases hpf : env.pageFetch page with
        | error e =>
          exact ⟨[page], by simp [Outcome.state, saveYarnCkpt_pageFetches]⟩
        | ok pd' =>
          show ∃ t,
            (if min total PROJECT_PAGINATION_LIMIT < page then
              Outcome.ok { s with pageFetches := s.pageFetches ++ [page] }
            else
              let s2 := processProjects env permalink exIds page
                { s with pageFetches := s.pageFetches ++ [page] } pd'.projects
              let s3 := { s2 with yc := setCurrentPage s2.yc (page + 1) }
              let r := saveYarnCkpt env s3
              if r.2 = true then
                collectPageLoop env permalink exIds f pd'.projects (page + 1)
                  (min total PROJECT_PAGINATION_LIMIT) r.1
              else Outcome.raised (saveYarnCkpt env r.1).1).state.pageFetches
              = s.pageFetches ++ t
          by_cases h3 : min total PROJECT_PAGINATION_LIMIT < page
          · rw [if_pos h3]
            exact ⟨[page], by simp [Outcome.state]⟩
          · rw [if_neg h3]
            dsimp only
            split
            · obtain ⟨t, ht⟩ := ih pd'.projects (page + 1)
                (min total PROJECT_PAGINATION_LIMIT)
                ((saveYarnCkpt env
                  { processProjects env permalink exIds page
                      { s with pageFetches := s.pageFetches ++ [page] }
                      pd'.projects with
                    yc := setCurrentPage
                      (processProjects env permalink exIds page
                        { s with pageFetches := s.pageFetches ++ [page] }
                        pd'.projects).yc (page + 1) }).1)
              refine ⟨[page] ++ t, ?_⟩
              rw [ht]
              rw [saveYarnCkpt_pageFetches]
              have hp := processProjects_pageFetches env permalink exIds page
                pd'.projects
                { s with pageFetches := s.pageFetches ++ [page] }
              simp only [hp]
              simp [List.append_assoc]
            · refine ⟨[page], ?_⟩
              simp only [Outcome.state, saveYarnCkpt_pageFetches]
              have hp := processProjects_pageFetches env permalink exIds page
                pd'.projects
                { s with pageFetches := s.pageFetches ++ [page] }
              simp only [hp]
      · rw [if_neg h2]
        dsimp only
        split
        · obtain ⟨t, ht⟩ := ih pd (page + 1) total
            ((saveYarnCkpt env
              { processProjects env permalink exIds page s pd with
                yc := setCurrentPage
                  (processProjects env permalink exIds page s pd).yc
                  (page + 1) }).1)
          refine ⟨t, ?_⟩
          rw [ht]
          rw [saveYarnCkpt_pageFetches]
          simp only [processProjects_pageFetches]
        · refine ⟨[], ?_⟩
          simp only [Outcome.state, saveYarnCkpt_pageFetches]
          simp only [processProjects_pageFetches]
          simp

/-- Claim C5 (counterexample): the claim states that when resuming
mid-pattern (the persisted `current_pattern` names the pattern being
processed) the persisted `current_project_page` is kept.  With a
checkpoint recording `current_pattern = "pat"` and
`current_project_page = 7`, Phase B still fetches page 1 first: the
reset on main.py line 263 is unconditional. -/
theorem C5_counterexample :
    c5Checkpoint.yarn_collection.current_pattern = some patternPat.permalink
    ∧ c5Checkpoint.yarn_collection.current_project_page = 7
    ∧ (processPatternSlice c5Env c5Checkpoint patternPat none).map
        (fun r => r.state.pageFetches) = some [1]
    ∧ (7 : Nat) ≠ 1 := by
  decide

/-- Claim C5 (amended): for every pattern Phase B actually processes (its
permalink not in `completed_patterns`), the project-listing page counter
is reset to 1 — also when resuming mid-pattern — so the first listing
page fetched by `collect_projects_for_pattern` is always page 1 and the
persisted `current_project_page` is never used on resume. -/
theorem collect_first_fetch_page_one (env : CrawlEnv)
    (pattern : PatternInfo) (s : CollectState)
    (h1 : s.yc.yarn_collection.current_project_page = 1)
    (h2 : s.pageFetches = []) :
    (collect_projects_for_pattern env pattern s).state.pageFetches.headD 0
      = 1 := by
  simp only [collect_projects_for_pattern]
  rw [h1]
  cases hpf : env.pageFetch 1 with
  | error e => simp [Outcome.state, h2]
  | ok pd =>
    dsimp only
    obtain ⟨t, ht⟩ := collectPageLoop_pageFetches env pattern.permalink
      (s.patternYarns.map (fun y => y.project_id))
      (pd.last_page + 2) pd.projects 1 pd.last_page
      { s with pageFetches := s.pageFetches ++ [1] }
    rw [ht]
    simp [h2]

theorem C5_start_page_always_one (env : CrawlEnv) (yc : Checkpoint)
    (pattern : PatternInfo) (yfile : Option (List ProjectYarnData))
    (h : yc.yarn_collection.completed_patterns.contains pattern.permalink
      = false) :
    (processPatternSlice env yc pattern yfile).map
      (fun r => r.state.pageFetches.headD 0) = some 1 := by
  simp only [processPatternSlice]
  rw [h]
  simp only [Bool.false_eq_true, if_false]
  exact congrArg some (collect_first_fetch_page_one env pattern _ rfl rfl)

/-- Claim C5 (witness): the amended reset behaviour observed on the
mid-pattern checkpoint persisted at page 7. -/
theorem C5_witness :
    (processPatternSlice c5Env c5Checkpoint patternPat none).map
      (fun r => r.state.pageFetches.headD 0) = some 1 :=
  C5_start_page_always_one c5Env c5Checkpoint patternPat none (by decide)

/-- Claim C1 (counterexample): a run in which the single project's yarn
detail fetch succeeds but the append-write of its record to the
per-pattern yarn file fails.  The project's key `"A_1"` is nevertheless
added to the in-memory `completed_projects` (the add on main.py line 197
precedes the file write on line 199) and is persisted to the yarn
checkpoint by the end-of-page save (line 212), even though the yarn file
holds no complete record for it — so the project would not be retried on
resume. -/
theorem C1_counterexample :
    unique_project_key projA = "A_1"
    ∧ c1Env.yarnWriteOk 0 = false
    ∧ c1Run.isOk = true
    ∧ c1Run.state.yw = 1
    ∧ c1Run.state.yarnFile = none
    ∧ (c1Run.state.persistedYc.map
        (fun c => c.yarn_collection.completed_projects.elems.contains "A_1"))
        = some true := by
  decide

/-- Claim C1 (amended): inside the per-project body, the key is added to
the in-memory `completed_projects` immediately after the yarn detail
fetch succeeds and *before* the yarn-file append-write; a fetch failure
leaves the checkpoint untouched, but after a successful fetch the key is
recorded whether or not the file write succeeds, and a later checkpoint
save persists it — so a partially-written project is not retried on
resume. -/
theorem C1_completed_key_semantics (env : CrawlEnv) (permalink : String)
    (existingIds : List Nat) (page : Nat) (s : CollectState) (p : Project)
    (hns : (s.yc.yarn_collection.completed_projects.elems.contains
        (unique_project_key p) || existingIds.contains p.id) = false) :
    (∀ d, env.yarnFetch p.id = Except.ok d →
      (processProject env permalink existingIds page s p).yc.yarn_collection.completed_projects.elems.contains
          (unique_project_key p) = true)
    ∧ (env.yarnFetch p.id = Except.error () →
      (processProject env permalink existingIds page s p).yc = s.yc) := by
  constructor
  · intro d hd
    simp only [processProject]
    rw [hns]
    simp only [Bool.false_eq_true, if_false, hd]
    split
    · rw [show ∀ s', ((saveYarnCkpt env s').1).yc = save_checkpoint_mem s'.yc
          from fun s' => rfl]
      rw [save_checkpoint_mem_elems]
      exact pySet_add_contains _ _
    · exact pySet_add_contains _ _
  · intro hd
    simp only [processProject]
    rw [hns]
    simp only [Bool.false_eq_true, if_false, hd]

/-- Claim C1 (witness): after a successful fetch of project `A` (id 1)
from the fresh default checkpoint, the key is present in the in-memory
completed set — here the file write fails, and the key is recorded
anyway. -/
theorem C1_witness :
    (processProject c1Env "pat" [] 1
        (initCollectState defaultCheckpoint [] none)
        projA).yc.yarn_collection.completed_projects.elems.contains
      (unique_project_key projA) = true :=
  (C1_completed_key_semantics c1Env "pat" [] 1
      (initCollectState defaultCheckpoint [] none) projA (by decide)).1
    detailA rfl

/-- Claim C8 (counterexample): a fatal per-project yarn detail fetch
failure does not halt the run: with project 1's fetch failing and
project 2 following on the same page, the loop catches the error,
continues, processes project 2, and returns without raising. -/
theorem C8_counterexample :
    c8Env.yarnFetch 1 = Except.error ()
    ∧ c8Run.isOk = true
    ∧ c8Run.state.fetched = [1, 2]
    ∧ c8Run.state.yc.yarn_collection.completed_projects.elems = ["B_2"] := by
  decide

/-- Claim C8 (amended): a failure of the page-listing refetch inside the
page loop runs the `except` handler, which saves the yarn checkpoint and
re-raises, so the run halts with the persisted checkpoint equal to the
in-memory state; but an error on a per-project yarn detail fetch is
caught and logged and the loop continues with the next project (see the
counterexample), so such an error never halts the run. -/
theorem C8_page_error_saves_then_raises (env : CrawlEnv)
    (permalink : String) (exIds : List Nat) (pd : List Project)
    (page total fuel : Nat) (s : CollectState)
    (h1 : 1 < page) (h2 : page ≤ total)
    (hf : env.pageFetch page = Except.error ())
    (hw : env.ckptWriteOk s.cw = true) :
    ∃ s', collectPageLoop env permalink exIds (fuel + 1) pd page total s
        = .raised s'
      ∧ s'.persistedYc = some s'.yc := by
  refine ⟨(saveYarnCkpt env
      { s with pageFetches := s.pageFetches ++ [page] }).1, ?_, ?_⟩
  · rw [collectPageLoop]
    rw [if_neg (by omega), if_pos h1]
    dsimp only
    rw [hf]
  · simp [saveYarnCkpt, hw]

/-- Claim C8 (witness): the save-then-raise behaviour observed when the
refetch of listing page 2 fails. -/
theorem C8_witness :
    ∃ s', collectPageLoop c8bEnv "pat" [] 1 [projA] 2 2
        (initCollectState defaultCheckpoint [] none) = .raised s'
      ∧ s'.persistedYc = some s'.yc :=
  C8_page_error_saves_then_raises c8bEnv "pat" [] [projA] 2 2 0
    (initCollectState defaultCheckpoint [] none)
    (by decide) (by decide) (by decide) (by decide)

theorem paginateRest_succ {α : Type} (server : Nat → PageResponse α)
    (maxPages : Option Nat) (total page f : Nat) (acc : List α) (cnt : Nat) :
    paginateRest server maxPages total page (f + 1) (acc, cnt) =
      if pageLoopCond maxPages page then
        let r := server page
        let items := acc ++ r.items
        if total ≤ page then (items, cnt + 1)
        else paginateRest server maxPages total (page + 1) f (items, cnt + 1)
      else (acc, cnt) := rfl

theorem paginateRest_stub {α : Type} (ps : List (List α)) :
    ∀ (fuel page : Nat) (acc : List α) (cnt : Nat),
      2 ≤ page → page ≤ ps.length → ps.length + 1 = page + fuel →
      paginateRest (stubServer ps) none ps.length page fuel (acc, cnt)
        = (acc ++ (ps.drop (page - 1)).flatten, cnt + fuel) := by
  intro fuel
  induction fuel with
  | zero => intro page acc cnt h2 hle hfuel; omega
  | succ f ih =>
    intro page acc cnt h2 hle hfuel
    rw [paginateRest_succ]
    have hcond : pageLoopCond none page = true := rfl
    rw [hcond]
    simp only [if_true, stubServer]
    have hlt : page - 1 < ps.length := by omega
    by_cases hend : ps.length ≤ page
    · rw [if_pos hend]
      have hf0 : f = 0 := by omega
      subst hf0
      rw [List.getD_eq_getElem _ _ hlt]
      have hdrop : ps.drop (page - 1) = [ps[page - 1]] := by
        rw [List.drop_eq_getElem_cons hlt,
          Nat.sub_add_cancel (by omega : 1 ≤ page),
          List.drop_eq_nil_of_le (by omega : ps.length ≤ page)]
      rw [hdrop]
      simp
    · rw [if_neg hend]
      have ihh := ih (page + 1) (acc ++ ps.getD (page - 1) []) (cnt + 1)
        (by omega) (by omega) (by omega)
      rw [ihh]
      rw [List.getD_eq_getElem _ _ hlt]
      have hdrop : ps.drop (page - 1) = ps[page - 1] :: ps.drop page := by
        have hh := List.drop_eq_getElem_cons hlt
        rwa [Nat.sub_add_cancel (by omega : 1 ≤ page)] at hh
      rw [hdrop, List.flatten_cons]
      rw [Nat.add_sub_cancel]
      rw [List.append_assoc]
      have : cnt + 1 + f = cnt + (f + 1) := by omega
      rw [this]

/-- Claim C6: for a stub listing of P pages (each response reporting P as
the total page count, the last page possibly partial) and no `max_pages`
limit, `paginate` yields exactly the concatenation of all pages' item
lists in server order, performs exactly P underlying page fetches, and
terminates. -/
theorem C6_paginate_complete {α : Type} (ps : List (List α))
    (h : ps ≠ []) :
    paginate (stubServer ps) none = (ps.flatten, ps.length) := by
  have hlen : 1 ≤ ps.length := List.length_pos.mpr h
  simp only [paginate, pageLoopCond, if_true, stubServer, Option.getD_some]
  by_cases h1 : ps.length ≤ 1
  · rw [if_pos h1]
    match ps, h, h1 with
    | [a], _, _ => simp
  · rw [if_neg h1]
    rw [paginateRest_stub ps (ps.length - 1) 2 (ps.getD 0 []) 1
      (by omega) (by omega) (by omega)]
    have hlt : 0 < ps.length := by omega
    rw [List.getD_eq_getElem _ _ hlt]
    have hdrop : ps.drop 0 = ps[0] :: ps.drop 1 := List.drop_eq_getElem_cons hlt
    rw [List.drop_zero] at hdrop
    conv =>
      rhs
      rw [show ps.flatten = (ps[0] :: ps.drop 1).flatten from by rw [← hdrop]]
    rw [List.flatten_cons]
    have : 1 + (ps.length - 1) = ps.length := by omega
    rw [this]

/-- Claim C6 (witness): the pagination completeness evaluated on a
two-page stub listing with a partial last page. -/
theorem C6_witness :
    paginate (stubServer [[10, 11], [20]]) none = ([10, 11, 20], 2) :=
  (C6_paginate_complete [[10, 11], [20]] (by decide)).trans (by decide)

end Ravelry
